import Mathlib

/-
Shallow embedding of src/Modules/Language/LanguageInterpreter.py.

The source defines a class LanguageInterpreter with fields
  messages, tools, tool_callbacks, tool_param_names,
a method add_tool that derives a tool schema from a Python callable's
signature via inspect, and a method run that drives the model turn loop.
Console printing and the ollama model-provisioning I/O in __init__ are
peripheral collaborators; the model provider (ollama.chat) is modelled as
an external function from the transcript and tool list to the returned
assistant message.  The unbounded while-loop of run is modelled with an
explicit fuel parameter: a result of none means the loop did not finish
within the given number of turns.
-/

/-- A dynamically typed Python value, as far as this module manipulates
them: None, booleans, integers, strings, and class objects (a class is
identified by its dunder name).  inspect.Parameter.empty is the class
inspect._empty, hence a class object here.  Two values of different
runtime type compare unequal in Python, which the derived decidable
equality mirrors by constructor discrimination. -/
inductive PyObj where
  | pyNone
  | pyBool (b : Bool)
  | pyInt (n : Int)
  | pyStr (s : String)
  | pyCls (n : String)
deriving DecidableEq, Repr

/-- Python repr of a value, used by run when stringifying tool results and
caught exceptions.  The exact rendering is irrelevant to the claims; this
follows CPython for the constructors above. -/
def pyRepr : PyObj → String
  | .pyNone => "None"
  | .pyBool true => "True"
  | .pyBool false => "False"
  | .pyInt n => toString n
  | .pyStr s => "\x27" ++ s ++ "\x27"
  | .pyCls n => "<class \x27" ++ n ++ "\x27>"

/-- The dunder name attribute of a class object (used by add_tool line 45:
fn_sig.parameters[param_name].annotation.__name__).  On a non-class the
attribute access would raise in Python; annotations in scope here are
always class objects (including inspect._empty, whose name is "_empty"). -/
def dunderName : PyObj → String
  | .pyCls n => n
  | _ => "<no name>"

/-- inspect.Parameter.empty: the sentinel class inspect._empty. -/
def ParameterEmpty : PyObj := .pyCls "_empty"

/-- One parameter of a Python function signature: its name, its annotation
(a class object, ParameterEmpty when unannotated) and its default value
(ParameterEmpty when it has none), as exposed by inspect.signature. -/
structure PyParameter where
  name : String
  annot : PyObj
  default : PyObj
deriving DecidableEq, Repr

/-- Result of calling a tool callback with keyword arguments: a normal
return value, or a raised exception (line 95 catches Exception). -/
inductive CallResult where
  | ok (v : PyObj)
  | exn (e : PyObj)

/-- A tool callback: from the keyword-argument mapping supplied by the
model to a CallResult.  Argument-shape failures of the **args call are
part of the callback's behaviour, i.e. an exn result. -/
def Callback := List (String × PyObj) → CallResult

/-- A Python function as consumed by add_tool: dunder name, docstring
(fn.__doc__, none when absent), signature parameters in declaration
order, and its behaviour when called. -/
structure PyFunction where
  name : String
  doc : Option String
  params : List PyParameter
  call : Callback

/-- ollama._types.Property: the per-parameter schema record. -/
structure Property where
  type : String
  description : String
deriving DecidableEq, Repr

/-- The "parameters" object of a tool schema: properties is the params
dict of add_tool in insertion order, required the required_params list. -/
structure ToolParameters where
  type : String
  properties : List (String × Property)
  required : List String
deriving DecidableEq, Repr

/-- The "function" object of a tool schema (lines 58-66). -/
structure ToolFunctionSchema where
  name : String
  description : Option String
  parameters : ToolParameters
deriving DecidableEq, Repr

/-- ollama._types.Tool (lines 56-67): {"type": "function", "function": ...}. -/
structure Tool where
  type : String
  function : ToolFunctionSchema
deriving DecidableEq, Repr

/-- One tool invocation request inside an assistant message:
tool_call["function"]["name"] and tool_call["function"]["arguments"]. -/
structure ToolCall where
  name : String
  arguments : List (String × PyObj)
deriving DecidableEq, Repr

/-- A transcript message.  User and tool messages are the dicts the source
appends on lines 72 and 99; an assistant message is what ollama.chat
returns: content plus the "tool_calls" entry, which may be missing
(none) or present with a possibly empty list. -/
inductive Message where
  | user (content : String)
  | assistant (content : String) (tool_calls : Option (List ToolCall))
  | tool (content : String)
deriving DecidableEq, Repr

/-- Python dict lookup on an association list with unique keys. -/
def dictGet {α : Type} : List (String × α) → String → Option α
  | [], _ => none
  | (k2, v) :: rest, k => if k2 = k then some v else dictGet rest k

/-- Python dict assignment d[k] = v: replace in place when the key exists
(preserving its position), else append at the end. -/
def dictInsert {α : Type} : List (String × α) → String → α → List (String × α)
  | [], k, v => [(k, v)]
  | (k2, w) :: rest, k, v =>
      if k2 = k then (k, v) :: rest else (k2, w) :: dictInsert rest k v

/-- The LanguageInterpreter state: its four fields as initialised by
__init__ (lines 22-25).  Callbacks are kept as an association list keyed
by name, matching the tool_callbacks dict. -/
structure LanguageInterpreter where
  messages : List Message
  tools : List Tool
  tool_callbacks : List (String × Callback)
  tool_param_names : List (String × List String)

/-- The state right after __init__: all four fields empty (lines 22-25).
The model-file creation and ollama.create provisioning (lines 26-37) are
external I/O with no effect on these fields. -/
def initInterp : LanguageInterpreter :=
  { messages := [], tools := [], tool_callbacks := [], tool_param_names := [] }

/-- One iteration of the parameter loop in add_tool (lines 43-55) acting on
the accumulated (params, required_params) pair.  Line 45 computes
annotation = parameter.annotation.__name__ — a string — and line 48
compares that string against the class Parameter.empty, so the comparison
is between values of different Python types. -/
def addToolStep (acc : List (String × Property) × List String) (p : PyParameter) :
    List (String × Property) × List String :=
  let annot : String := dunderName p.annot
  let descr : String := "The " ++ p.name ++ " parameter"
  let param_type : String := "any"
  let param_type : String :=
    if PyObj.pyStr annot ≠ ParameterEmpty then annot else param_type
  let required_params : List String :=
    if p.default = ParameterEmpty then acc.2 ++ [p.name] else acc.2
  (dictInsert acc.1 p.name { type := param_type, description := descr },
   required_params)

/-- The Property that addToolStep stores for a parameter. -/
def mkProperty (p : PyParameter) : Property :=
  { type := if PyObj.pyStr (dunderName p.annot) ≠ ParameterEmpty
            then dunderName p.annot else "any",
    description := "The " ++ p.name ++ " parameter" }

/-- The tool dict built by add_tool (lines 56-67) for a function. -/
def derivedTool (fn : PyFunction) : Tool :=
  let pr := fn.params.foldl addToolStep ([], [])
  { type := "function",
    function :=
      { name := fn.name,
        description := fn.doc,
        parameters := { type := "object", properties := pr.1, required := pr.2 } } }

/-- LanguageInterpreter.add_tool (lines 39-69): derive the schema, append
it to self.tools (line 68), and assign the callback into the
tool_callbacks dict keyed by the function's dunder name (line 69).
tool_param_names is never written. -/
def add_tool (self : LanguageInterpreter) (fn : PyFunction) : LanguageInterpreter :=
  { self with
      tools := self.tools ++ [derivedTool fn],
      tool_callbacks := dictInsert self.tool_callbacks fn.name fn.call }

/-- The body of a tool result string given the callback's outcome
(lines 93-96): the try/except around the **args call. -/
def callbackResponse (cb : Callback) (args : List (String × PyObj)) : String :=
  match cb args with
  | .ok v => "Completed with no errors. Result: " ++ pyRepr v
  | .exn ex => "Error: " ++ pyRepr ex

/-- The tool_response string computed for one tool_call (lines 91-98):
dispatch by name through the tool_callbacks dict, with the unknown-name
branch of line 98. -/
def toolResponse (tool_callbacks : List (String × Callback)) (tc : ToolCall) : String :=
  match dictGet tool_callbacks tc.name with
  | some cb => callbackResponse cb tc.arguments
  | none => "Error: " ++ tc.name ++ " is not a tool."

/-- The tool-role messages appended by the for-loop over tool_calls
(lines 86-99), one per invocation request, in order. -/
def toolMessages (tool_callbacks : List (String × Callback)) (tcs : List ToolCall) :
    List Message :=
  tcs.map (fun tc => Message.tool (toolResponse tool_callbacks tc))

/-- The model provider (ollama.chat, lines 76-78): from the transcript and
the registered tool schemas to the returned assistant message, given as
its content string and its optional tool_calls list. -/
def Provider := List Message → List Tool → String × Option (List ToolCall)

/-- The while-loop of run (lines 75-101), with fuel bounding the number of
model turns.  Each turn: call the provider on the current transcript and
tools, accumulate content (line 80), append the assistant message
(line 81); with a missing or empty tool_calls list the loop ends after
this turn, otherwise the tool-role result messages are appended and the
loop repeats. -/
def runLoop (p : Provider) (tools : List Tool) (cbs : List (String × Callback)) :
    Nat → List Message → String → Option (String × List Message)
  | 0, _, _ => none
  | fuel + 1, messages, content =>
    let c2 : String := (p messages tools).1
    let tcs? : Option (List ToolCall) := (p messages tools).2
    let content2 : String := content ++ c2
    let messages2 : List Message := messages ++ [Message.assistant c2 tcs?]
    match tcs? with
    | some tcs =>
        if tcs.length = 0 then some (content2, messages2 ++ toolMessages cbs tcs)
        else runLoop p tools cbs fuel (messages2 ++ toolMessages cbs tcs) content2
    | none => some (content2, messages2)

/-- LanguageInterpreter.run (lines 71-102): append the user message, drive
the turn loop, and return the accumulated content together with the
updated state.  none means the fuel bound was reached, i.e. the loop was
still running after that many provider turns. -/
def run (p : Provider) (fuel : Nat) (self : LanguageInterpreter) (command : String) :
    Option (String × LanguageInterpreter) :=
  match runLoop p self.tools self.tool_callbacks fuel
      (self.messages ++ [Message.user command]) "" with
  | some (content, msgs2) => some (content, { self with messages := msgs2 })
  | none => none

/-- Content of an assistant message; none for user and tool messages. -/
def assistantContent : Message → Option String
  | .assistant c _ => some c
  | _ => none

/-- Concatenation of a list of strings in order. -/
def strConcat : List String → String
  | [] => ""
  | s :: rest => s ++ strConcat rest

/-- Python dict lookup after assignment of the same key yields the
assigned value. -/
theorem dictGet_insert_self {α : Type} (d : List (String × α)) (k : String) (v : α) :
    dictGet (dictInsert d k v) k = some v := by
  induction d with
  | nil => simp [dictInsert, dictGet]
  | cons q rest ih =>
    by_cases h : q.1 = k
    · simp [dictInsert, h, dictGet]
    · simpa [dictInsert, h, dictGet] using ih

/-- Assigning a key absent from the dict appends the binding. -/
theorem dictInsert_of_fresh {α : Type} (d : List (String × α)) (k : String) (v : α)
    (h : ∀ q ∈ d, q.1 ≠ k) : dictInsert d k v = d ++ [(k, v)] := by
  induction d with
  | nil => rfl
  | cons q rest ih =>
    have hq : q.1 ≠ k := h q (List.mem_cons_self q rest)
    simp only [dictInsert, if_neg hq, List.cons_append, List.cons.injEq, true_and]
    exact ih fun q2 hq2 => h q2 (List.mem_cons_of_mem q hq2)

/-- Tool-role messages carry no assistant content. -/
theorem toolMessages_filterMap (cbs : List (String × Callback)) (tcs : List ToolCall) :
    (toolMessages cbs tcs).filterMap assistantContent = [] := by
  induction tcs with
  | nil => rfl
  | cons tc rest ih =>
    rw [toolMessages, List.map_cons, List.filterMap_cons]
    exact ih

/-- Unfolding one turn of the loop when the provider requests at least one
invocation: the assistant message and the tool-role result messages are
appended and the loop recurses on the extended transcript. -/
theorem runLoop_succ_some (p : Provider) (tools : List Tool)
    (cbs : List (String × Callback)) (fuel : Nat) (msgs : List Message)
    (c c2 : String) (tcs : List ToolCall)
    (h : p msgs tools = (c2, some tcs)) (hne : tcs ≠ []) :
    runLoop p tools cbs (fuel + 1) msgs c =
      runLoop p tools cbs fuel
        (msgs ++ Message.assistant c2 (some tcs) :: toolMessages cbs tcs) (c ++ c2) := by
  have hlen : ¬ tcs.length = 0 := by
    intro h0
    exact hne (List.length_eq_zero.mp h0)
  simp [runLoop, h, hlen]

/-- Unfolding one turn of the loop when the provider requests no
invocations (missing or empty tool_calls): the loop returns after that
turn with the assistant message appended. -/
theorem runLoop_succ_done (p : Provider) (tools : List Tool)
    (cbs : List (String × Callback)) (fuel : Nat) (msgs : List Message) (c : String)
    (h : (p msgs tools).2 = none ∨ (p msgs tools).2 = some []) :
    runLoop p tools cbs (fuel + 1) msgs c =
      some (c ++ (p msgs tools).1,
        msgs ++ [Message.assistant (p msgs tools).1 (p msgs tools).2]) := by
  rcases h with h | h <;> simp [runLoop, h, toolMessages]

/-- Whatever the loop returns extends the transcript it started from, and
the returned content is the initial accumulator followed by the contents
of the assistant messages appended during the loop, in order. -/
theorem runLoop_extends (p : Provider) (tools : List Tool)
    (cbs : List (String × Callback)) :
    ∀ (fuel : Nat) (msgs : List Message) (c content : String) (msgs2 : List Message),
    runLoop p tools cbs fuel msgs c = some (content, msgs2) →
    ∃ tail, msgs2 = msgs ++ tail ∧
      content = c ++ strConcat (tail.filterMap assistantContent) := by
  intro fuel
  induction fuel with
  | zero => intro msgs c content msgs2 h; simp [runLoop] at h
  | succ n ih =>
    intro msgs c content msgs2 h
    rcases htc : (p msgs tools).2 with _ | tcs
    · rw [runLoop_succ_done p tools cbs n msgs c (Or.inl htc)] at h
      injection h with h0
      injection h0 with h1 h2
      refine ⟨[Message.assistant (p msgs tools).1 (p msgs tools).2], by simp [← h2], ?_⟩
      simp [← h1, assistantContent, strConcat, htc]
    · rcases tcs with _ | ⟨tc, rest⟩
      · rw [runLoop_succ_done p tools cbs n msgs c (Or.inr htc)] at h
        injection h with h0
        injection h0 with h1 h2
        refine ⟨[Message.assistant (p msgs tools).1 (p msgs tools).2], by simp [← h2], ?_⟩
        simp [← h1, assistantContent, strConcat, htc]
      · have hp : p msgs tools = ((p msgs tools).1, some (tc :: rest)) := by
          rw [← htc]
        rw [runLoop_succ_some p tools cbs n msgs c (p msgs tools).1 (tc :: rest) hp
          (by simp)] at h
        obtain ⟨tail2, ht1, ht2⟩ := ih _ _ _ _ h
        refine ⟨Message.assistant (p msgs tools).1 (some (tc :: rest)) ::
          (toolMessages cbs (tc :: rest) ++ tail2), ?_, ?_⟩
        · simp [ht1]
        · rw [ht2]
          simp only [List.filterMap_cons, assistantContent, List.filterMap_append,
            toolMessages_filterMap, List.nil_append, strConcat]
          rw [String.append_assoc]

/-- The first message the loop appends is the provider's response to the
transcript the loop started from. -/
theorem runLoop_first_message (p : Provider) (tools : List Tool)
    (cbs : List (String × Callback)) (fuel : Nat) (msgs : List Message)
    (c content : String) (msgs2 : List Message)
    (h : runLoop p tools cbs (fuel + 1) msgs c = some (content, msgs2)) :
    ∃ rest, msgs2 = msgs ++
      Message.assistant (p msgs tools).1 (p msgs tools).2 :: rest := by
  rcases htc : (p msgs tools).2 with _ | tcs
  · rw [runLoop_succ_done p tools cbs fuel msgs c (Or.inl htc)] at h
    injection h with h0
    injection h0 with h1 h2
    rw [htc] at h2
    exact ⟨[], h2.symm⟩
  · rcases tcs with _ | ⟨tc, rest0⟩
    · rw [runLoop_succ_done p tools cbs fuel msgs c (Or.inr htc)] at h
      injection h with h0
      injection h0 with h1 h2
      rw [htc] at h2
      exact ⟨[], h2.symm⟩
    · have hp : p msgs tools = ((p msgs tools).1, some (tc :: rest0)) := by
        rw [← htc]
      rw [runLoop_succ_some p tools cbs fuel msgs c (p msgs tools).1 (tc :: rest0) hp
        (by simp)] at h
      obtain ⟨tail2, ht1, _⟩ := runLoop_extends p tools cbs _ _ _ _ _ h
      refine ⟨toolMessages cbs (tc :: rest0) ++ tail2, ?_⟩
      rw [ht1]
      simp

/-- Taking one element past an explicit prefix. -/
theorem take_append_cons (xs : List Message) (a : Message) (rest : List Message) :
    (xs ++ a :: rest).take (xs.length + 1) = xs ++ [a] := by
  induction xs with
  | nil => rfl
  | cons x xs ih => simpa [List.take_succ_cons] using ih

/-- addToolStep stores mkProperty for the parameter and appends the name to
required_params exactly when the parameter has no default. -/
theorem addToolStep_eq (acc : List (String × Property) × List String) (p : PyParameter) :
    addToolStep acc p =
      (dictInsert acc.1 p.name (mkProperty p),
       if p.default = ParameterEmpty then acc.2 ++ [p.name] else acc.2) := rfl

/-- The parameter loop of add_tool, run over parameters with pairwise
distinct names that are fresh for the accumulated dict, appends one
property per parameter in declaration order and one required name per
defaultless parameter in declaration order. -/
theorem foldl_addToolStep (ps : List PyParameter) :
    ∀ (props : List (String × Property)) (req : List String),
    (∀ p ∈ ps, ∀ q ∈ props, q.1 ≠ p.name) →
    (ps.map PyParameter.name).Nodup →
    ps.foldl addToolStep (props, req) =
      (props ++ ps.map (fun p => (p.name, mkProperty p)),
       req ++ (ps.filter (fun p => p.default == ParameterEmpty)).map PyParameter.name) := by
  induction ps with
  | nil => intro props req _ _; simp
  | cons p ps ih =>
    intro props req hfresh hnodup
    rw [List.foldl_cons, addToolStep_eq]
    rw [dictInsert_of_fresh props p.name (mkProperty p)
      (fun q hq => hfresh p (List.mem_cons_self p ps) q hq)]
    rw [List.map_cons, List.nodup_cons] at hnodup
    have hfresh2 : ∀ p2 ∈ ps, ∀ q ∈ props ++ [(p.name, mkProperty p)], q.1 ≠ p2.name := by
      intro p2 hp2 q hq
      rcases List.mem_append.mp hq with hq | hq
      · exact hfresh p2 (List.mem_cons_of_mem p hp2) q hq
      · have hq2 : q = (p.name, mkProperty p) := by simpa using hq
        rw [hq2]
        show p.name ≠ p2.name
        intro hcontra
        have hm : p2.name ∈ ps.map PyParameter.name :=
          List.mem_map_of_mem PyParameter.name hp2
        rw [← hcontra] at hm
        exact hnodup.1 hm
    rw [ih (props ++ [(p.name, mkProperty p)]) _ hfresh2 hnodup.2]
    by_cases hd : p.default = ParameterEmpty
    · simp [hd, List.filter_cons, List.append_assoc]
    · simp [hd, List.filter_cons, List.append_assoc]

/-- Example host function with one int-annotated, defaultless parameter;
its behaviour returns the supplied argument. -/
def echoFn : PyFunction :=
  { name := "echo",
    doc := some "Echo the argument back.",
    params := [{ name := "x", annot := .pyCls "int", default := ParameterEmpty }],
    call := fun args =>
      match dictGet args "x" with
      | some v => .ok v
      | none => .exn (.pyStr "TypeError") }

/-- Interpreter state with echoFn registered. -/
def echoSt : LanguageInterpreter := add_tool initInterp echoFn

/-- Scripted model provider: on the first turn (the transcript holds only
the user message) it answers with empty content and one echo invocation
with valid arguments; on later turns it answers "done" with no tool_calls
entry. -/
def scriptedP : Provider := fun msgs _ =>
  if msgs.length ≤ 1 then
    ("", some [{ name := "echo", arguments := [("x", .pyInt 1)] }])
  else ("done", none)

/-- The state left by run scriptedP 6 echoSt "go". -/
def echoStAfter : LanguageInterpreter :=
  { echoSt with messages :=
      [Message.user "go",
       Message.assistant "" (some [{ name := "echo", arguments := [("x", .pyInt 1)] }]),
       Message.tool "Completed with no errors. Result: 1",
       Message.assistant "done" none] }

/-- Dissection of one successful run call: the transcript it leaves starts
with the transcript it was given, then the new user message, and the next
message recorded is exactly the provider's answer to the full transcript
including the new user message. -/
theorem run_structure (p : Provider) (fuel : Nat) (st : LanguageInterpreter)
    (cmd content : String) (st2 : LanguageInterpreter)
    (h : run p fuel st cmd = some (content, st2)) :
    (∃ tail, st2.messages = st.messages ++ Message.user cmd :: tail) ∧
    st2.messages.take (st.messages.length + 2) =
      st.messages ++ [Message.user cmd,
        Message.assistant (p (st.messages ++ [Message.user cmd]) st.tools).1
          (p (st.messages ++ [Message.user cmd]) st.tools).2] := by
  rcases fuel with _ | n
  · rw [run] at h
    simp [runLoop] at h
  · rw [run] at h
    rcases hr : runLoop p st.tools st.tool_callbacks (n + 1)
        (st.messages ++ [Message.user cmd]) "" with _ | ⟨c2, m2⟩
    · rw [hr] at h; simp at h
    · rw [hr] at h
      injection h with h0
      injection h0 with h1 h2
      obtain ⟨rest, hrest⟩ := runLoop_first_message p st.tools st.tool_callbacks n
        (st.messages ++ [Message.user cmd]) "" c2 m2 hr
      have hmsg : st2.messages = (st.messages ++ [Message.user cmd]) ++
          Message.assistant (p (st.messages ++ [Message.user cmd]) st.tools).1
            (p (st.messages ++ [Message.user cmd]) st.tools).2 :: rest := by
        rw [← h2]
        exact hrest
      constructor
      · exact ⟨Message.assistant (p (st.messages ++ [Message.user cmd]) st.tools).1
            (p (st.messages ++ [Message.user cmd]) st.tools).2 :: rest, by simp [hmsg]⟩
      · rw [hmsg]
        have hlen : st.messages.length + 2 =
            (st.messages ++ [Message.user cmd]).length + 1 := by
          simp
        rw [hlen, take_append_cons]
        simp

/-- Two registered functions sharing the name "dup". -/
def dupA : PyFunction :=
  { name := "dup", doc := none, params := [], call := fun _ => .ok (.pyInt 1) }

/-- Second function under the shared name "dup". -/
def dupB : PyFunction :=
  { name := "dup", doc := none, params := [], call := fun _ => .ok (.pyInt 2) }

/-- Claim C1, as stated, fails on the code: after registering dupA and then
dupB (both named "dup") on a fresh interpreter, the registry's schema
list self.tools holds two entries under that name — add_tool appends to
the list on line 68 — so the registry does not contain exactly one entry
for the name. -/
theorem C1_schema_list_counterexample :
    ((add_tool (add_tool initInterp dupA) dupB).tools.filter
      (fun t => t.function.name == "dup")).length = 2 ∧
    ¬ ((add_tool (add_tool initInterp dupA) dupB).tools.filter
      (fun t => t.function.name == "dup")).length = 1 := by
  constructor
  · rfl
  · decide

/-- Claim C1 amended: after the second registration under a shared name,
the callback map tool_callbacks holds exactly one entry for that name —
the second function's callback (line 69 assigns into a dict, last write
wins) — and dispatch by run for that name runs the second function's
callback only; the schema list self.tools, however, retains one appended
schema per registration, so the shared name appears twice among the
schemas sent to the model. -/
theorem C1_last_write_wins_amended (st : LanguageInterpreter) (f1 f2 : PyFunction)
    (hname : f1.name = f2.name) :
    dictGet (add_tool (add_tool st f1) f2).tool_callbacks f2.name = some f2.call ∧
    (add_tool (add_tool st f1) f2).tools =
      st.tools ++ [derivedTool f1, derivedTool f2] ∧
    ∀ args, toolResponse (add_tool (add_tool st f1) f2).tool_callbacks
        { name := f2.name, arguments := args } = callbackResponse f2.call args := by
  refine ⟨dictGet_insert_self .., by simp [add_tool], ?_⟩
  intro args
  simp [toolResponse, add_tool, dictGet_insert_self]

/-- Witness for C1 at the concrete input dupA, dupB (same name "dup"). -/
theorem C1_last_write_wins_witness :
    dictGet (add_tool (add_tool initInterp dupA) dupB).tool_callbacks "dup" =
      some dupB.call ∧
    (add_tool (add_tool initInterp dupA) dupB).tools =
      initInterp.tools ++ [derivedTool dupA, derivedTool dupB] ∧
    ∀ args, toolResponse (add_tool (add_tool initInterp dupA) dupB).tool_callbacks
        { name := "dup", arguments := args } = callbackResponse dupB.call args :=
  C1_last_write_wins_amended initInterp dupA dupB rfl

/-- Host function f(x, y: int = 0) whose first parameter has no type
annotation. -/
def unannFn : PyFunction :=
  { name := "f", doc := none,
    params := [{ name := "x", annot := ParameterEmpty, default := ParameterEmpty },
               { name := "y", annot := .pyCls "int", default := .pyInt 0 }],
    call := fun _ => .ok .pyNone }

/-- Claim C2 states the intended behaviour, but the code has a bug: for a
parameter with no type annotation the derived schema records the type
string "_empty", not the unconstrained marker "any".  Line 45 takes
annotation.__name__ (giving "_empty" for an unannotated parameter) before
line 48 compares against Parameter.empty, and a string never equals that
sentinel class, so the "any" default set on line 47 is dead.  A parameter
with an annotation is recorded with its declared type name (here "int"),
as the claim says. -/
theorem C2_unannotated_type_eval :
    (derivedTool unannFn).function.parameters.properties =
      [("x", { type := "_empty", description := "The x parameter" }),
       ("y", { type := "int", description := "The y parameter" })] ∧
    ("_empty" : String) ≠ "any" := by
  constructor
  · rfl
  · decide

/-- Scripted provider that never requests an invocation. -/
def providerNone : Provider := fun _ _ => ("hi", none)

/-- Scripted provider that always requests exactly one invocation. -/
def providerAlways : Provider :=
  fun _ _ => ("", some [{ name := "t", arguments := [] }])

/-- Claim C4: the turn loop ends exactly when a model turn carries zero
invocation requests.  First conjunct: a turn whose tool_calls entry is
missing or an empty list makes the loop return right after that turn,
with just the assistant message appended.  Second conjunct: a provider
whose every answer carries at least one invocation request keeps the loop
running past any fuel bound — runLoop yields none for every fuel, the
fuel rendering of an unbounded loop with no turn cap and no timeout. -/
theorem C4_loop_termination :
    (∀ (p : Provider) (tools : List Tool) (cbs : List (String × Callback))
       (fuel : Nat) (msgs : List Message) (c : String),
       (p msgs tools).2 = none ∨ (p msgs tools).2 = some [] →
       runLoop p tools cbs (fuel + 1) msgs c =
         some (c ++ (p msgs tools).1,
           msgs ++ [Message.assistant (p msgs tools).1 (p msgs tools).2])) ∧
    (∀ (p : Provider) (tools : List Tool) (cbs : List (String × Callback)),
       (∀ msgs, (p msgs tools).2 ≠ none ∧ (p msgs tools).2 ≠ some []) →
       ∀ (fuel : Nat) (msgs : List Message) (c : String),
         runLoop p tools cbs fuel msgs c = none) := by
  constructor
  · exact runLoop_succ_done
  · intro p tools cbs hp fuel
    induction fuel with
    | zero => intro msgs c; rfl
    | succ n ih =>
      intro msgs c
      obtain ⟨h1, h2⟩ := hp msgs
      rcases htc : (p msgs tools).2 with _ | tcs
      · exact absurd htc h1
      · rcases tcs with _ | ⟨tc, rest⟩
        · exact absurd htc h2
        · rw [runLoop_succ_some p tools cbs n msgs c (p msgs tools).1 (tc :: rest)
            (by rw [← htc]) (by simp)]
          exact ih _ _

/-- Witness for C4: the no-invocation provider ends after one turn; the
always-invoking provider exhausts a fuel of 3. -/
theorem C4_loop_termination_witness :
    runLoop providerNone [] [] 1 [] "" =
      some ("" ++ "hi", [] ++ [Message.assistant "hi" none]) ∧
    runLoop providerAlways [] [] 3 [] "" = none := by
  constructor
  · exact C4_loop_termination.1 providerNone [] [] 0 [] "" (Or.inl rfl)
  · exact C4_loop_termination.2 providerAlways [] []
      (fun msgs => ⟨by simp [providerAlways], by simp [providerAlways]⟩) 3 [] ""

/-- Claim C5: for an invocation request whose name is registered, a normal
callback return v yields the tool-role content "Completed with no errors.
Result: " followed by repr(v) (line 94), and a raised failure ex yields
"Error: " followed by repr(ex) (lines 95-96); in the failing case the
loop still appends the tool messages of the turn and proceeds to the next
provider call — the failure is contained in the tool message and has no
channel to abort the loop or reach the caller of run. -/
theorem C5_callback_result_messages (cbs : List (String × Callback)) (tc : ToolCall)
    (cb : Callback) (hcb : dictGet cbs tc.name = some cb) :
    (∀ v, cb tc.arguments = CallResult.ok v →
       toolResponse cbs tc = "Completed with no errors. Result: " ++ pyRepr v) ∧
    (∀ ex, cb tc.arguments = CallResult.exn ex →
       toolResponse cbs tc = "Error: " ++ pyRepr ex) ∧
    (∀ ex, cb tc.arguments = CallResult.exn ex →
       ∀ (p : Provider) (tools : List Tool) (fuel : Nat) (msgs : List Message)
         (c c2 : String) (tcs : List ToolCall),
         p msgs tools = (c2, some tcs) → tc ∈ tcs →
         runLoop p tools cbs (fuel + 1) msgs c =
           runLoop p tools cbs fuel
             (msgs ++ Message.assistant c2 (some tcs) :: toolMessages cbs tcs)
             (c ++ c2)) := by
  refine ⟨?_, ?_, ?_⟩
  · intro v hv
    simp [toolResponse, hcb, callbackResponse, hv]
  · intro ex he
    simp [toolResponse, hcb, callbackResponse, he]
  · intro ex he p tools fuel msgs c c2 tcs hp hmem
    exact runLoop_succ_some p tools cbs fuel msgs c c2 tcs hp (List.ne_nil_of_mem hmem)

/-- Callback that returns 7. -/
def okCb : Callback := fun _ => .ok (.pyInt 7)

/-- Callback that raises. -/
def exnCb : Callback := fun _ => .exn (.pyStr "boom")

/-- Witness for C5 at concrete registries with a succeeding and a raising
callback. -/
theorem C5_callback_result_witness :
    toolResponse [("t", okCb)] { name := "t", arguments := [] } =
      "Completed with no errors. Result: " ++ pyRepr (.pyInt 7) ∧
    toolResponse [("t", exnCb)] { name := "t", arguments := [] } =
      "Error: " ++ pyRepr (.pyStr "boom") := by
  constructor
  · exact (C5_callback_result_messages [("t", okCb)]
      { name := "t", arguments := [] } okCb rfl).1 (.pyInt 7) rfl
  · exact (C5_callback_result_messages [("t", exnCb)]
      { name := "t", arguments := [] } exnCb rfl).2.1 (.pyStr "boom") rfl

/-- Claim C6: an invocation request naming a tool absent from the registry
yields tool-role content exactly "Error: <name> is not a tool."
(line 98); toolResponse and the loop are total, so nothing is raised to
the caller, and when the turn carried the request the loop recurses to
request another model turn. -/
theorem C6_unknown_tool_message (cbs : List (String × Callback)) (tc : ToolCall)
    (h : dictGet cbs tc.name = none) :
    toolResponse cbs tc = "Error: " ++ tc.name ++ " is not a tool." ∧
    (∀ (p : Provider) (tools : List Tool) (fuel : Nat) (msgs : List Message)
       (c c2 : String) (tcs : List ToolCall),
       p msgs tools = (c2, some tcs) → tc ∈ tcs →
       runLoop p tools cbs (fuel + 1) msgs c =
         runLoop p tools cbs fuel
           (msgs ++ Message.assistant c2 (some tcs) :: toolMessages cbs tcs)
           (c ++ c2)) := by
  constructor
  · simp [toolResponse, h]
  · intro p tools fuel msgs c c2 tcs hp hmem
    exact runLoop_succ_some p tools cbs fuel msgs c c2 tcs hp (List.ne_nil_of_mem hmem)

/-- Witness for C6 on an empty registry and the name "ghost". -/
theorem C6_unknown_tool_witness :
    toolResponse [] { name := "ghost", arguments := [] } =
      "Error: " ++ "ghost" ++ " is not a tool." :=
  (C6_unknown_tool_message [] { name := "ghost", arguments := [] } rfl).1

/-- Claim C7: a turn whose assistant message carries the nonempty
invocation list tcs appends, immediately after that assistant message and
before anything else, exactly one tool-role message per invocation, in
the order the invocations were issued, and only then recurses into the
next provider call — so no provider call is interleaved between the
tool-role messages of one turn. -/
theorem C7_tool_messages_per_turn (p : Provider) (tools : List Tool)
    (cbs : List (String × Callback)) (fuel : Nat) (msgs : List Message)
    (c c2 : String) (tcs : List ToolCall)
    (hne : tcs ≠ []) (hp : p msgs tools = (c2, some tcs)) :
    runLoop p tools cbs (fuel + 1) msgs c =
      runLoop p tools cbs fuel
        (msgs ++ Message.assistant c2 (some tcs) :: toolMessages cbs tcs)
        (c ++ c2) ∧
    (toolMessages cbs tcs).length = tcs.length ∧
    ∀ i : Nat, (toolMessages cbs tcs)[i]? =
      (tcs[i]?).map (fun tc => Message.tool (toolResponse cbs tc)) := by
  refine ⟨runLoop_succ_some p tools cbs fuel msgs c c2 tcs hp hne, ?_, ?_⟩
  · simp [toolMessages]
  · intro i
    simp [toolMessages, List.getElem?_map]

/-- Witness for C7 with the always-invoking provider and its one-element
invocation list. -/
theorem C7_tool_messages_witness :
    runLoop providerAlways [] [] 1 [] "" =
      runLoop providerAlways [] [] 0
        ([] ++ Message.assistant "" (some [{ name := "t", arguments := [] }]) ::
          toolMessages [] [{ name := "t", arguments := [] }]) ("" ++ "") ∧
    (toolMessages [] [{ name := "t", arguments := [] }]).length =
      [({ name := "t", arguments := [] } : ToolCall)].length ∧
    ∀ i : Nat, (toolMessages [] [{ name := "t", arguments := [] }])[i]? =
      ([({ name := "t", arguments := [] } : ToolCall)][i]?).map
        (fun tc => Message.tool (toolResponse [] tc)) :=
  C7_tool_messages_per_turn providerAlways [] [] 0 [] "" ""
    [{ name := "t", arguments := [] }] (by simp) rfl

/-- Claim C3: run returns the concatenation, in turn order, of the content
of every assistant message produced during that call (first conjunct,
over all providers and states: the returned content is exactly the
assistant contents among the messages appended by the call, in order);
and for the scripted provider — turn 1: content "" plus one valid echo
invocation, turn 2: content "done" with no invocations — run "go" on a
fresh interpreter with echo registered returns "done" and leaves exactly
the 4 messages user, assistant(turn1), tool(result), assistant(turn2). -/
theorem C3_run_returns_assistant_concat :
    (∀ (p : Provider) (fuel : Nat) (st : LanguageInterpreter) (cmd content : String)
       (st2 : LanguageInterpreter), run p fuel st cmd = some (content, st2) →
       ∃ tail, st2.messages = st.messages ++ Message.user cmd :: tail ∧
         content = strConcat (tail.filterMap assistantContent)) ∧
    run scriptedP 6 echoSt "go" = some ("done", echoStAfter) ∧
    echoStAfter.messages =
      [Message.user "go",
       Message.assistant "" (some [{ name := "echo", arguments := [("x", .pyInt 1)] }]),
       Message.tool "Completed with no errors. Result: 1",
       Message.assistant "done" none] := by
  refine ⟨?_, rfl, rfl⟩
  intro p fuel st cmd content st2 h
  rw [run] at h
  rcases hr : runLoop p st.tools st.tool_callbacks fuel
      (st.messages ++ [Message.user cmd]) "" with _ | ⟨c2, m2⟩
  · rw [hr] at h; simp at h
  · rw [hr] at h
    injection h with h0
    injection h0 with h1 h2
    obtain ⟨tail, ht1, ht2⟩ := runLoop_extends p st.tools st.tool_callbacks fuel _ _ _ _ hr
    refine ⟨tail, ?_, ?_⟩
    · rw [← h2]
      simpa using ht1
    · rw [← h1, ht2, String.empty_append]

/-- Witness for C3: the general conjunct applied to the scripted scenario. -/
theorem C3_run_concat_witness :
    ∃ tail, echoStAfter.messages = echoSt.messages ++ Message.user "go" :: tail ∧
      "done" = strConcat (tail.filterMap assistantContent) :=
  C3_run_returns_assistant_concat.1 scriptedP 6 echoSt "go" "done" echoStAfter rfl

/-- Claim C8: for a host function with pairwise distinct parameter names,
the derived schema carries the function's name, its docstring as the
description (the very value fn.__doc__, absent exactly when the function
has none), exactly one property per parameter in declaration order, the
required list holding exactly the names of the parameters without a
default, in order — so a parameter is required iff it lacks a default —
and the generic description "The <name> parameter" on every parameter. -/
theorem C8_schema_derivation (fn : PyFunction)
    (hnodup : (fn.params.map PyParameter.name).Nodup) :
    (derivedTool fn).function.name = fn.name ∧
    (derivedTool fn).function.description = fn.doc ∧
    (derivedTool fn).function.parameters.properties =
      fn.params.map (fun p => (p.name, mkProperty p)) ∧
    (derivedTool fn).function.parameters.properties.length = fn.params.length ∧
    (derivedTool fn).function.parameters.required =
      (fn.params.filter (fun p => p.default == ParameterEmpty)).map PyParameter.name ∧
    (∀ p ∈ fn.params,
       p.name ∈ (derivedTool fn).function.parameters.required ↔
         p.default = ParameterEmpty) ∧
    (∀ pr ∈ (derivedTool fn).function.parameters.properties,
       pr.2.description = "The " ++ pr.1 ++ " parameter") := by
  have hfold := foldl_addToolStep fn.params [] []
    (by intro p hp q hq; simp at hq) hnodup
  have hprops : (derivedTool fn).function.parameters.properties =
      fn.params.map (fun p => (p.name, mkProperty p)) := by
    simp [derivedTool, hfold]
  have hreq : (derivedTool fn).function.parameters.required =
      (fn.params.filter (fun p => p.default == ParameterEmpty)).map PyParameter.name := by
    simp [derivedTool, hfold]
  refine ⟨rfl, rfl, hprops, ?_, hreq, ?_, ?_⟩
  · rw [hprops]
    simp
  · intro p hp
    rw [hreq]
    constructor
    · intro hmem
      obtain ⟨q, hqf, hqname⟩ := List.mem_map.mp hmem
      obtain ⟨hq, hqd⟩ := List.mem_filter.mp hqf
      have hqd2 : q.default = ParameterEmpty := by simpa using hqd
      have hqp : q = p := List.inj_on_of_nodup_map hnodup hq hp hqname
      rw [← hqp]
      exact hqd2
    · intro hd
      exact List.mem_map.mpr ⟨p, List.mem_filter.mpr ⟨hp, by simp [hd]⟩, rfl⟩
  · intro pr hpr
    rw [hprops] at hpr
    obtain ⟨q, hq, hqe⟩ := List.mem_map.mp hpr
    rw [← hqe]
    rfl

/-- Witness for C8 on the echo function, whose single parameter name list
is duplicate-free. -/
theorem C8_schema_derivation_witness :
    (echoFn.params.map PyParameter.name).Nodup ∧
    (derivedTool echoFn).function.name = echoFn.name :=
  ⟨by decide, (C8_schema_derivation echoFn (by decide)).1⟩

/-- Claim C9: the transcript is append-only and accumulates across run
calls.  A successful run leaves the prior transcript verbatim as a
prefix, followed by the new user message (first conjunct: nothing is
removed or reordered), and the assistant message recorded right after the
new user message is the provider's answer to the full prior transcript
plus that user message — the transcript sent to the model.  The last
conjunct instantiates this for a second run on the resulting state: the
transcript the second call sends to its provider is the whole first
call's transcript plus the second call's new user message. -/
theorem C9_transcript_accumulates (p : Provider) (fuel : Nat)
    (st : LanguageInterpreter) (cmd content : String) (st2 : LanguageInterpreter)
    (h : run p fuel st cmd = some (content, st2)) :
    (∃ tail, st2.messages = st.messages ++ Message.user cmd :: tail) ∧
    st2.messages.take (st.messages.length + 2) =
      st.messages ++ [Message.user cmd,
        Message.assistant (p (st.messages ++ [Message.user cmd]) st.tools).1
          (p (st.messages ++ [Message.user cmd]) st.tools).2] ∧
    ∀ (p2 : Provider) (fuel2 : Nat) (cmd2 content2 : String)
      (stF : LanguageInterpreter), run p2 fuel2 st2 cmd2 = some (content2, stF) →
      ∃ tail2, stF.messages = st2.messages ++ Message.user cmd2 :: tail2 ∧
        stF.messages.take (st2.messages.length + 2) =
          st2.messages ++ [Message.user cmd2,
            Message.assistant (p2 (st2.messages ++ [Message.user cmd2]) st2.tools).1
              (p2 (st2.messages ++ [Message.user cmd2]) st2.tools).2] := by
  obtain ⟨he, ht⟩ := run_structure p fuel st cmd content st2 h
  refine ⟨he, ht, ?_⟩
  intro p2 fuel2 cmd2 content2 stF h2
  obtain ⟨⟨tail2, he2⟩, ht2⟩ := run_structure p2 fuel2 st2 cmd2 content2 stF h2
  exact ⟨tail2, he2, ht2⟩

/-- Witness for C9 on the scripted scenario. -/
theorem C9_transcript_witness :
    ∃ tail, echoStAfter.messages = echoSt.messages ++ Message.user "go" :: tail :=
  (C9_transcript_accumulates scriptedP 6 echoSt "go" "done" echoStAfter rfl).1

/-- Claim C10: disjoint frames.  add_tool mutates only the registry —
the transcript and the parameter-name map are untouched (the latter is in
fact never written anywhere); run mutates only the transcript — the tool
schemas, the callback map and the parameter-name map are unchanged. -/
theorem C10_frame_conditions :
    (∀ (st : LanguageInterpreter) (fn : PyFunction),
       (add_tool st fn).messages = st.messages ∧
       (add_tool st fn).tool_param_names = st.tool_param_names) ∧
    (∀ (p : Provider) (fuel : Nat) (st : LanguageInterpreter) (cmd content : String)
       (st2 : LanguageInterpreter), run p fuel st cmd = some (content, st2) →
       st2.tools = st.tools ∧ st2.tool_callbacks = st.tool_callbacks ∧
       st2.tool_param_names = st.tool_param_names) := by
  constructor
  · intro st fn
    exact ⟨rfl, rfl⟩
  · intro p fuel st cmd content st2 h
    rw [run] at h
    rcases hr : runLoop p st.tools st.tool_callbacks fuel
        (st.messages ++ [Message.user cmd]) "" with _ | ⟨c2, m2⟩
    · rw [hr] at h; simp at h
    · rw [hr] at h
      injection h with h0
      injection h0 with h1 h2
      rw [← h2]
      exact ⟨rfl, rfl, rfl⟩

/-- Witness for C10: registration on the fresh interpreter and the
scripted run. -/
theorem C10_frame_witness :
    ((add_tool initInterp echoFn).messages = initInterp.messages ∧
     (add_tool initInterp echoFn).tool_param_names = initInterp.tool_param_names) ∧
    (echoStAfter.tools = echoSt.tools ∧
     echoStAfter.tool_callbacks = echoSt.tool_callbacks ∧
     echoStAfter.tool_param_names = echoSt.tool_param_names) :=
  ⟨C10_frame_conditions.1 initInterp echoFn,
   C10_frame_conditions.2 scriptedP 6 echoSt "go" "done" echoStAfter rfl⟩
